import Mathlib

/-
Verification of the reference-counted ownership runtime of this repository
(the shared_ptr / weak_ptr / control-block implementation in
src/shared_ptr/shared_ptr_GNU_version/text_main.cc, src/shared_ptr/sp_count.h
and the shared_ptr / weak_ptr layer in src/unnamed/part_001).

The shallow embedding below translates the C++ classes into Lean as follows.

The class _sp_counted_base together with its concrete subclass
_sp_counted_ptr (the Control Block) becomes the structure ControlBlock.
Its two std::atomic_int32_t counters _use_count and _weak_count become Int
fields (the claims under verification never drive the counters anywhere near
the int32 range, so two-complement wraparound is not modelled).  The managed
raw pointer _M_ptr of _sp_counted_ptr becomes an Option Nat (an abstract
address, none for a null pointer).  Two ghost fields observe the events the
claims talk about: disposeCount counts the calls of the virtual _use_dispose
(destruction of the pointee by delete _M_ptr) and destroyCount counts the
calls of the virtual _weak_destroy (self-deletion of the block by
delete this).  Atomic read-modify-write operations are translated to their
sequential meaning; in particular the compare-exchange loop of
_try_use_add_ref_nothrow succeeds on its first attempt when no other thread
interferes, which reduces it to a single test-and-increment.

Handles are modelled on two levels.

For claims about whole sequences of handle operations on one shared block
(C1, C2, C4), the state machine MState keeps the single ControlBlock
together with the number of live owning handles and live observing handles
that reference it.  All live owning handles of one block are
interchangeable with respect to the block state, so a count suffices.  The
operations (HOp) are the block-relevant effects of the C++ special member
functions: copy construction of a live shared_ptr (_use_add_ref), move
construction (transfers the reference, no count change), destruction of a
live shared_ptr (_use_sub_ref), construction of a weak_ptr from a live
shared_ptr (_weak_add_ref), copy of a live weak_ptr (_weak_add_ref),
destruction of a live weak_ptr (_weak_sub_ref), and weak_ptr::lock
(_try_use_add_ref_nothrow).  Assignment operators decompose into these
effects: copy assignment onto an empty handle has the effect of a copy,
copy assignment between handles of the same block changes nothing
(the guard tmp != _M_pi in __shared_count::operator=), and move assignment
is a transfer followed by the release of the old reference of the target.
Operations whose source handle is empty touch no block (their _M_pi is
null), so when no live handle remains every operation is the identity.

For claims about the state of an individual handle (C5, C6, C7, C8, C10),
the structure SPtr models __shared_ptr flattened with its __shared_count
member: the field _M_ptr is the stored access pointer and the field _M_pi
is the optional index of the referenced control block inside a heap,
modelled as a List ControlBlock (allocation appends at the end, deletion is
observed through the ghost counters, entries are never removed so indices
stay stable).
-/

/-- Control block: _sp_counted_base merged with _sp_counted_ptr.
_use_count and _weak_count are the two atomic counters, _M_ptr the managed
pointer of _sp_counted_ptr, disposeCount and destroyCount are ghost
observers of the virtual calls _use_dispose and _weak_destroy. -/
structure ControlBlock where
  _use_count : Int
  _weak_count : Int
  _M_ptr : Option Nat
  disposeCount : Nat
  destroyCount : Nat
deriving DecidableEq, Repr

namespace ControlBlock

/-- The constructors _sp_counted_base() : _use_count(1), _weak_count(1) and
_sp_counted_ptr(_Ptr p) : _M_ptr(p).  This is the block created by
__shared_count(_Ptr p) through new _sp_counted_ptr(p). -/
def mk0 (p : Option Nat) : ControlBlock :=
  { _use_count := 1, _weak_count := 1, _M_ptr := p
    disposeCount := 0, destroyCount := 0 }

/-- _use_add_ref: _use_count.fetch_add(1, relaxed). -/
def _use_add_ref (b : ControlBlock) : ControlBlock :=
  { b with _use_count := b._use_count + 1 }

/-- _weak_add_ref: _weak_count.fetch_add(1, relaxed). -/
def _weak_add_ref (b : ControlBlock) : ControlBlock :=
  { b with _weak_count := b._weak_count + 1 }

/-- _sp_counted_ptr::_use_dispose: delete _M_ptr.  Modelled by the ghost
counter that records that the pointee has been destroyed (once more). -/
def _use_dispose (b : ControlBlock) : ControlBlock :=
  { b with disposeCount := b.disposeCount + 1 }

/-- _sp_counted_ptr::_weak_destroy: delete this.  Modelled by the ghost
counter that records the self-deletion of the block. -/
def _weak_destroy (b : ControlBlock) : ControlBlock :=
  { b with destroyCount := b.destroyCount + 1 }

/-- _use_sub_ref_last: _use_dispose(); then
if (_weak_count.fetch_sub(1, acq_rel) == 1) _weak_destroy(). -/
def _use_sub_ref_last (b : ControlBlock) : ControlBlock :=
  let b1 := _use_dispose b
  let oldw := b1._weak_count
  let b2 := { b1 with _weak_count := oldw - 1 }
  if oldw = 1 then _weak_destroy b2 else b2

/-- _use_sub_ref: if (_use_count.fetch_sub(1, acq_rel) == 1)
_use_sub_ref_last().  fetch_sub returns the value before the decrement. -/
def _use_sub_ref (b : ControlBlock) : ControlBlock :=
  let oldu := b._use_count
  let b1 := { b with _use_count := oldu - 1 }
  if oldu = 1 then _use_sub_ref_last b1 else b1

/-- _weak_sub_ref: if (_weak_count.fetch_sub(1, acq_rel) == 1)
_weak_destroy(). -/
def _weak_sub_ref (b : ControlBlock) : ControlBlock :=
  let oldw := b._weak_count
  let b1 := { b with _weak_count := oldw - 1 }
  if oldw = 1 then _weak_destroy b1 else b1

/-- _try_use_add_ref_nothrow: the compare-exchange loop
(text_main.cc lines 225-233 and sp_count.h lines 56-64).  Read the count;
if it is zero return false without mutating; otherwise the CAS installs
count + 1 and the function returns true.  Sequentially the CAS succeeds on
the first attempt, so the loop reduces to this single test-and-increment. -/
def _try_use_add_ref_nothrow (b : ControlBlock) : Bool × ControlBlock :=
  if b._use_count = 0 then (false, b)
  else (true, { b with _use_count := b._use_count + 1 })

/-- _get_use_count: _use_count.load(). -/
def _get_use_count (b : ControlBlock) : Int := b._use_count

end ControlBlock

/-- State of one control block shared by a population of handles:
the block itself, the number of live (non-empty) owning handles that
reference it and the number of live observing handles that reference it. -/
structure MState where
  blk : ControlBlock
  owning : Nat
  observing : Nat
deriving DecidableEq, Repr

/-- Handle operations, named after the C++ special member functions whose
block effect they are (see the header comment). -/
inductive HOp where
  | copy   -- __shared_ptr(const __shared_ptr&): _use_add_ref
  | move   -- __shared_ptr(__shared_ptr&&): transfer, no count change
  | drop   -- ~__shared_ptr via ~__shared_count: _use_sub_ref
  | wfromS -- __weak_ptr(const __shared_ptr&): _weak_add_ref
  | wcopy  -- __weak_count(const __weak_count&): _weak_add_ref
  | wdrop  -- ~__weak_ptr via ~__weak_count: _weak_sub_ref
  | lock   -- __weak_ptr::lock via _try_use_add_ref_nothrow
deriving DecidableEq, Repr

/-- One handle operation.  An operation whose source handle would be empty
(no live handle of the required kind exists) touches no block, because the
null check on _M_pi in every __shared_count / __weak_count special member
skips the counter call; it is therefore the identity here. -/
def hstep (op : HOp) (s : MState) : MState :=
  match op with
  | .copy =>
      if 0 < s.owning then
        { s with blk := ControlBlock._use_add_ref s.blk, owning := s.owning + 1 }
      else s
  | .move => s
  | .drop =>
      if 0 < s.owning then
        { s with blk := ControlBlock._use_sub_ref s.blk, owning := s.owning - 1 }
      else s
  | .wfromS =>
      if 0 < s.owning then
        { s with blk := ControlBlock._weak_add_ref s.blk, observing := s.observing + 1 }
      else s
  | .wcopy =>
      if 0 < s.observing then
        { s with blk := ControlBlock._weak_add_ref s.blk, observing := s.observing + 1 }
      else s
  | .wdrop =>
      if 0 < s.observing then
        { s with blk := ControlBlock._weak_sub_ref s.blk, observing := s.observing - 1 }
      else s
  | .lock =>
      if 0 < s.observing then
        let r := ControlBlock._try_use_add_ref_nothrow s.blk
        if r.1 then { s with blk := r.2, owning := s.owning + 1 }
        else { s with blk := r.2 }
      else s

/-- The factory-created starting state: __shared_ptr(p) allocates the block
with _use_count = 1 and _weak_count = 1; one live owning handle, no
observing handle. -/
def startState (p : Option Nat) : MState :=
  { blk := ControlBlock.mk0 p, owning := 1, observing := 0 }

/-- Run a finite sequence of handle operations. -/
def runOps (ops : List HOp) (s : MState) : MState :=
  ops.foldl (fun t op => hstep op t) s

/-- The reachable-state invariant of the block shared by the handles:
the use count equals the number of live owning handles; the weak count
equals the number of live observing handles plus the implicit owner
observer while any owning handle is alive; the pointee has been destroyed
exactly once as soon as (and only when) the owning population is gone; the
block has deleted itself exactly once as soon as (and only when) both
populations are gone. -/
def MInv (s : MState) : Prop :=
  s.blk._use_count = (s.owning : Int)
  ∧ s.blk._weak_count = (s.observing : Int) + (if 0 < s.owning then 1 else 0)
  ∧ s.blk.disposeCount = (if s.owning = 0 then 1 else 0)
  ∧ s.blk.destroyCount = (if s.owning = 0 ∧ s.observing = 0 then 1 else 0)

lemma minv_start (p : Option Nat) : MInv (startState p) := by
  simp [MInv, startState, ControlBlock.mk0]

lemma minv_hstep (op : HOp) (s : MState) (h : MInv s) : MInv (hstep op s) := by
  obtain ⟨b, ow, ob⟩ := s
  obtain ⟨h1, h2, h3, h4⟩ := h
  simp only at h1 h2 h3 h4
  cases op
  case copy =>
    by_cases ho : 0 < ow
    · simp only [hstep, if_pos ho, MInv, ControlBlock._use_add_ref]
      split_ifs at h2 h3 h4 ⊢ <;> first | omega | simp_all
    · simpa only [hstep, if_neg ho] using ⟨h1, h2, h3, h4⟩
  case move => exact ⟨h1, h2, h3, h4⟩
  case drop =>
    by_cases ho : 0 < ow
    · simp only [hstep, if_pos ho, MInv, ControlBlock._use_sub_ref,
        ControlBlock._use_sub_ref_last, ControlBlock._use_dispose,
        ControlBlock._weak_destroy]
      split_ifs at h2 h3 h4 ⊢ <;> first | omega | simp_all
    · simpa only [hstep, if_neg ho] using ⟨h1, h2, h3, h4⟩
  case wfromS =>
    by_cases ho : 0 < ow
    · simp only [hstep, if_pos ho, MInv, ControlBlock._weak_add_ref]
      split_ifs at h2 h3 h4 ⊢ <;> first | omega | simp_all
    · simpa only [hstep, if_neg ho] using ⟨h1, h2, h3, h4⟩
  case wcopy =>
    by_cases hb : 0 < ob
    · simp only [hstep, if_pos hb, MInv, ControlBlock._weak_add_ref]
      split_ifs at h2 h3 h4 ⊢ <;> first | omega | simp_all
    · simpa only [hstep, if_neg hb] using ⟨h1, h2, h3, h4⟩
  case wdrop =>
    by_cases hb : 0 < ob
    · simp only [hstep, if_pos hb, MInv, ControlBlock._weak_sub_ref,
        ControlBlock._weak_destroy]
      split_ifs at h2 h3 h4 ⊢ <;> first | omega | simp_all
    · simpa only [hstep, if_neg hb] using ⟨h1, h2, h3, h4⟩
  case lock =>
    by_cases hb : 0 < ob
    · by_cases hu : b._use_count = 0
      · simpa only [hstep, if_pos hb, ControlBlock._try_use_add_ref_nothrow,
          if_pos hu] using ⟨h1, h2, h3, h4⟩
      · simp only [hstep, if_pos hb, ControlBlock._try_use_add_ref_nothrow,
          if_neg hu, if_true, MInv]
        split_ifs at h2 h3 h4 ⊢ <;> first | omega | simp_all
    · simpa only [hstep, if_neg hb] using ⟨h1, h2, h3, h4⟩

lemma minv_runOps (ops : List HOp) (s : MState) (h : MInv s) :
    MInv (runOps ops s) := by
  induction ops generalizing s with
  | nil => exact h
  | cons op ops ih => exact ih (hstep op s) (minv_hstep op s h)

/-- Owning-handle operations only: copy construction, move construction and
drop (destruction) of an owning handle — the operation set of claim C1. -/
inductive OwnOp where
  | copy
  | move
  | drop
deriving DecidableEq, Repr

/-- Inclusion of the owning-handle operations into the full operation set. -/
def OwnOp.toHOp : OwnOp → HOp
  | .copy => HOp.copy
  | .move => HOp.move
  | .drop => HOp.drop

/-- C1: for every finite sequence of copy, move and drop operations on
owning handles sharing one control block, starting from a factory-created
handle, at the end use_count() (which reads _get_use_count of the block)
equals the number of live owning handles referencing the block, and the
destroy operation on the pointee (_use_dispose) has run exactly once if the
owning population has reached zero, and not at all otherwise — so it runs at
the moment the count first reaches zero, never before and never a second
time (the property holds after every prefix of the sequence as well, since
the theorem quantifies over all sequences). -/
theorem c1_use_count_equals_live_owning_handles (p : Option Nat)
    (ops : List OwnOp) :
    ControlBlock._get_use_count (runOps (ops.map OwnOp.toHOp) (startState p)).blk
      = ((runOps (ops.map OwnOp.toHOp) (startState p)).owning : Int)
    ∧ (runOps (ops.map OwnOp.toHOp) (startState p)).blk.disposeCount
      = (if (runOps (ops.map OwnOp.toHOp) (startState p)).owning = 0
         then 1 else 0) := by
  obtain ⟨h1, h2, h3, h4⟩ :=
    minv_runOps (ops.map OwnOp.toHOp) (startState p) (minv_start p)
  exact ⟨h1, h3⟩

/-- C4: the observing count is initialized to 1 (the implicit owner
observer); over every sequence of handle operations it never is 0 while an
owning handle is alive; the block self-deletes (_weak_destroy) exactly once,
exactly when both the owning and the observing populations are gone — the
instant the weak count goes from 1 to 0 — and self-deletion implies that the
pointee destruction has already happened. -/
theorem c4_weak_count_and_block_self_deletion :
    (∀ p : Option Nat, (ControlBlock.mk0 p)._weak_count = 1)
    ∧ ∀ (p : Option Nat) (ops : List HOp),
        (0 < (runOps ops (startState p)).owning →
          0 < (runOps ops (startState p)).blk._weak_count)
        ∧ (runOps ops (startState p)).blk.destroyCount
            = (if (runOps ops (startState p)).owning = 0
                  ∧ (runOps ops (startState p)).observing = 0
               then 1 else 0)
        ∧ ((runOps ops (startState p)).blk.destroyCount = 1 →
            (runOps ops (startState p)).blk.disposeCount = 1) := by
  constructor
  · intro p; rfl
  · intro p ops
    obtain ⟨h1, h2, h3, h4⟩ := minv_runOps ops (startState p) (minv_start p)
    refine ⟨?_, h4, ?_⟩
    · intro ho
      rw [h2]
      split_ifs <;> omega
    · intro hd
      rw [h4] at hd
      rw [h3]
      split_ifs at hd ⊢ <;> omega

/-- Witness for C4 at concrete inputs: with no operation the weak count of
the factory state is positive, and after dropping the only owning handle the
pointee has been destroyed once. -/
theorem c4_weak_count_and_block_self_deletion_witness :
    0 < (runOps [] (startState (some 0))).blk._weak_count
    ∧ (runOps [HOp.drop] (startState (some 0))).blk.disposeCount = 1 :=
  ⟨(c4_weak_count_and_block_self_deletion.2 (some 0) []).1 (by decide),
   (c4_weak_count_and_block_self_deletion.2 (some 0) [HOp.drop]).2.2 (by decide)⟩

/-- Modelled from the spec: the promotion behind weak_ptr::lock.  The
shared_ptr layer in src/unnamed/part_001 implements lock() as
shared_ptr(*this, std::nothrow), and the underlying constructor
__shared_ptr(const __weak_ptr&, std::nothrow_t) together with
__shared_count(const __weak_count&, std::nothrow_t) is defined in
shared_ptr_base.h, a header of this repository that is not under src (the
draft in text_main.cc lines 690-693 initializes the shared count from the
weak count through that same missing constructor).  Spec section 4.3: lock
attempts try_retain_owning() on the block; on success it returns a new
owning handle sharing the block, with the owning count already incremented
— no double increment; on failure (pointee already destroyed, or the handle
was empty) it returns an empty owning handle; this never throws.  The
try_retain_owning operation itself is _try_use_add_ref_nothrow from src.
Inputs: att says whether the weak handle references a block (its _M_pi is
non-null), wptr is its stored access pointer, b is the referenced block.
Output: the access pointer of the produced owning handle, whether the
produced handle references the block, and the block afterwards.  The
function is total with no error outcome, which is the never-throws part of
the contract. -/
def lockWeak (att : Bool) (wptr : Option Nat) (b : ControlBlock) :
    Option Nat × Bool × ControlBlock :=
  if att then
    let r := ControlBlock._try_use_add_ref_nothrow b
    if r.1 then (wptr, true, r.2) else (none, false, r.2)
  else (none, false, b)

/-- C2: lock returns an empty owning handle, leaving the block untouched,
exactly when the weak handle is empty or the owning count is zero (pointee
already destroyed); otherwise it returns a handle sharing the weak handle
pointer and block with the owning count incremented exactly once.
Moreover, after any operation sequence in which the pointee has been
destroyed, lock on an attached weak handle returns the empty handle and
does not change the block — it never returns a handle to a destroyed
pointee. -/
theorem c2_lock_never_returns_destroyed_pointee :
    (∀ (att : Bool) (wptr : Option Nat) (b : ControlBlock),
        lockWeak att wptr b
          = if att = true ∧ b._use_count ≠ 0
            then (wptr, true, ControlBlock._use_add_ref b)
            else (none, false, b))
    ∧ (∀ (p : Option Nat) (ops : List HOp) (wptr : Option Nat),
        0 < (runOps ops (startState p)).blk.disposeCount →
        lockWeak true wptr (runOps ops (startState p)).blk
          = (none, false, (runOps ops (startState p)).blk)) := by
  constructor
  · intro att wptr b
    cases att
    · simp [lockWeak]
    · by_cases hu : b._use_count = 0
      · simp [lockWeak, ControlBlock._try_use_add_ref_nothrow, hu]
      · simp [lockWeak, ControlBlock._try_use_add_ref_nothrow, hu,
          ControlBlock._use_add_ref]
  · intro p ops wptr hd
    obtain ⟨h1, h2, h3, h4⟩ := minv_runOps ops (startState p) (minv_start p)
    have hu : (runOps ops (startState p)).blk._use_count = 0 := by
      rw [h3] at hd
      rw [h1]
      split_ifs at hd <;> omega
    simp [lockWeak, ControlBlock._try_use_add_ref_nothrow, hu]

/-- Witness for C2 at a concrete input: after dropping the only owning
handle (the pointee is destroyed), lock on an attached weak handle yields
the empty handle and leaves the block unchanged. -/
theorem c2_lock_never_returns_destroyed_pointee_witness :
    lockWeak true (some 3) (runOps [HOp.drop] (startState (some 0))).blk
      = (none, false, (runOps [HOp.drop] (startState (some 0))).blk) :=
  c2_lock_never_returns_destroyed_pointee.2 (some 0) [HOp.drop] (some 3)
    (by decide)

/-- C3: _try_use_add_ref_nothrow returns false and leaves the block
completely unchanged exactly when the owning count is zero; otherwise it
returns true and increments the owning count by exactly one, leaving every
other component of the block unchanged. -/
theorem c3_try_use_add_ref_nothrow_spec (b : ControlBlock) :
    ((ControlBlock._try_use_add_ref_nothrow b).1 = false
        ∧ (ControlBlock._try_use_add_ref_nothrow b).2 = b
      ↔ b._use_count = 0)
    ∧ (b._use_count ≠ 0 →
        (ControlBlock._try_use_add_ref_nothrow b).1 = true
        ∧ (ControlBlock._try_use_add_ref_nothrow b).2._use_count
            = b._use_count + 1
        ∧ (ControlBlock._try_use_add_ref_nothrow b).2._weak_count
            = b._weak_count
        ∧ (ControlBlock._try_use_add_ref_nothrow b).2.disposeCount
            = b.disposeCount
        ∧ (ControlBlock._try_use_add_ref_nothrow b).2.destroyCount
            = b.destroyCount
        ∧ (ControlBlock._try_use_add_ref_nothrow b).2._M_ptr = b._M_ptr) := by
  by_cases hu : b._use_count = 0 <;>
    simp [ControlBlock._try_use_add_ref_nothrow, hu]

/-- Witness for C3 at a concrete input: on a fresh block (owning count 1)
the operation succeeds. -/
theorem c3_try_use_add_ref_nothrow_spec_witness :
    (ControlBlock._try_use_add_ref_nothrow (ControlBlock.mk0 (some 0))).1
      = true :=
  ((c3_try_use_add_ref_nothrow_spec (ControlBlock.mk0 (some 0))).2
    (by decide)).1

/-- Owning handle: __shared_ptr flattened with its __shared_count member.
_M_ptr is the stored access pointer (element_type*, none for null) and
_M_pi is the pointer of the embedded __shared_count to its control block,
modelled as an optional index into the heap of blocks. -/
structure SPtr where
  _M_ptr : Option Nat
  _M_pi : Option Nat
deriving DecidableEq, Repr

/-- Read a block of the heap.  A dangling index yields a dummy block; it
never arises for handles that satisfy inHeap. -/
def getBlk (heap : List ControlBlock) (i : Nat) : ControlBlock :=
  heap.getD i (ControlBlock.mk0 none)

/-- _M_pi->_use_add_ref() on block i of the heap. -/
def useAddRefAt (heap : List ControlBlock) (i : Nat) : List ControlBlock :=
  heap.set i (ControlBlock._use_add_ref (getBlk heap i))

/-- _M_pi->_use_sub_ref() on block i of the heap. -/
def useSubRefAt (heap : List ControlBlock) (i : Nat) : List ControlBlock :=
  heap.set i (ControlBlock._use_sub_ref (getBlk heap i))

/-- A handle references only blocks that exist in the heap. -/
def inHeap (h : SPtr) (heap : List ControlBlock) : Bool :=
  match h._M_pi with
  | none => true
  | some i => decide (i < heap.length)

/-- __shared_ptr::use_count through __shared_count::_get_use_count:
the block count when _M_pi is non-null, otherwise 0. -/
def SPtr.use_count (h : SPtr) (heap : List ControlBlock) : Int :=
  match h._M_pi with
  | none => 0
  | some i => ControlBlock._get_use_count (getBlk heap i)

/-- The default constructor __shared_ptr(): _M_ptr(0), _M_ref_count(). -/
def sharedDefault : SPtr := { _M_ptr := none, _M_pi := none }

/-- __shared_ptr(_Tp* p): _M_ptr(p), _M_ref_count(p).  The constructor
__shared_count(_Ptr p) runs _M_pi = new _sp_counted_ptr(p) unconditionally,
for a null p as well.  Returns the new handle and the extended heap. -/
def sharedFromRaw (p : Option Nat) (heap : List ControlBlock) :
    SPtr × List ControlBlock :=
  ({ _M_ptr := p, _M_pi := some heap.length }, heap ++ [ControlBlock.mk0 p])

/-- __shared_ptr(__shared_ptr&& r): takes the pointer of r, swaps a
default-constructed count with the count of r, and sets r._M_ptr to null.
Returns (new handle, moved-from source); no block is touched. -/
def sharedMove (r : SPtr) : SPtr × SPtr :=
  ({ _M_ptr := r._M_ptr, _M_pi := r._M_pi },
   { _M_ptr := none, _M_pi := none })

/-- __shared_ptr::operator=(const __shared_ptr& r): _M_ptr = r._M_ptr,
then __shared_count::operator=: when the two block pointers differ,
_use_add_ref on the block of r, _use_sub_ref on the old block (in that
order), adopt the block of r; when they are equal, do nothing. -/
def sharedAssign (h r : SPtr) (heap : List ControlBlock) :
    SPtr × List ControlBlock :=
  let heap2 :=
    if r._M_pi = h._M_pi then heap
    else
      let heap1 :=
        match r._M_pi with
        | some j => useAddRefAt heap j
        | none => heap
      match h._M_pi with
      | some i => useSubRefAt heap1 i
      | none => heap1
  ({ _M_ptr := r._M_ptr, _M_pi := r._M_pi }, heap2)

/-- __shared_ptr::operator*: if (get() != nullptr) return *get(); else
throw logic_error("shared_ptr is empty").  The returned pointee reference
is modelled by its address; the method is const and has no effect on the
handle or the block. -/
def sharedStar (h : SPtr) : Except String Nat :=
  match h._M_ptr with
  | some a => Except.ok a
  | none => Except.error "shared_ptr is empty"

/-- __shared_ptr::operator->: the same null check, returning get(). -/
def sharedArrow (h : SPtr) : Except String Nat :=
  match h._M_ptr with
  | some a => Except.ok a
  | none => Except.error "shared_ptr is empty"

/-- Heap effects of reset(p), in execution order: construction of the
fresh control block by the temporary shared_ptr(p), and release of the
previously owned block when the temporary (holding the old state after the
swap) is destroyed. -/
inductive REv where
  | alloc (i : Nat)
  | release (i : Nat)
deriving DecidableEq, Repr

/-- __shared_ptr::reset(_Tp* p):
if (p != nullptr && p != _M_ptr) shared_ptr(p).swap(*this);
else throw logic_error("ptr is illegal").
On success the temporary allocates a fresh block, the swap hands the new
state to *this, and the destruction of the temporary at the end of the
full expression releases the old block through ~__shared_count.  On
failure the throw leaves *this and the heap untouched.  Returns the error
outcome, the handle, the heap and the ordered heap events. -/
def resetTo (h : SPtr) (heap : List ControlBlock) (p : Option Nat) :
    Except String Unit × SPtr × List ControlBlock × List REv :=
  if p ≠ none ∧ p ≠ h._M_ptr then
    let n := heap.length
    let heap1 := heap ++ [ControlBlock.mk0 p]
    let h1 : SPtr := { _M_ptr := p, _M_pi := some n }
    match h._M_pi with
    | some i =>
        (Except.ok (), h1, useSubRefAt heap1 i, [REv.alloc n, REv.release i])
    | none => (Except.ok (), h1, heap1, [REv.alloc n])
  else (Except.error "ptr is illegal", h, heap, [])

/-- The access pointer determined by the block reference of a handle: none
for an empty handle, otherwise the pointer that the referenced block
manages (_sp_counted_ptr::_M_ptr). -/
def blockPtr (h : SPtr) (heap : List ControlBlock) : Option Nat :=
  match h._M_pi with
  | none => none
  | some i => (getBlk heap i)._M_ptr

/-- Representation invariant of the handles this implementation produces:
the stored access pointer agrees with the pointer managed by the referenced
block.  There is no aliasing constructor, so every constructor
(default, from raw pointer, copy, move, promotion, reset) establishes it. -/
def WfPtr (h : SPtr) (heap : List ControlBlock) : Prop :=
  h._M_ptr = blockPtr h heap

lemma getBlk_append_self (heap : List ControlBlock) (b : ControlBlock) :
    getBlk (heap ++ [b]) heap.length = b := by
  simp [getBlk, List.getD]

lemma getBlk_set_self (heap : List ControlBlock) (b : ControlBlock)
    (i : Nat) (hi : i < heap.length) :
    getBlk (heap.set i b) i = b := by
  simp [getBlk, List.getD, List.getElem?_set_self, hi]

lemma getBlk_set_ne (heap : List ControlBlock) (b : ControlBlock)
    (i j : Nat) (hij : i ≠ j) :
    getBlk (heap.set i b) j = getBlk heap j := by
  simp [getBlk, List.getD, List.getElem?_set_ne hij]

/-- The handle produced from a raw pointer satisfies the representation
invariant (its block manages exactly the stored pointer). -/
lemma wfPtr_sharedFromRaw (p : Option Nat) (heap : List ControlBlock) :
    WfPtr (sharedFromRaw p heap).1 (sharedFromRaw p heap).2 := by
  simp [WfPtr, sharedFromRaw, blockPtr, getBlk_append_self, ControlBlock.mk0]

lemma inHeap_lt {h : SPtr} {heap : List ControlBlock} {i : Nat}
    (hin : inHeap h heap = true) (hpi : h._M_pi = some i) :
    i < heap.length := by
  unfold inHeap at hin
  rw [hpi] at hin
  exact of_decide_eq_true hin

/-- C5: reset(p) fails with the illegal-pointer error exactly when p is
null or p equals the currently held pointer; on failure the handle, the
heap, and hence use_count(), are unchanged; on success the handle adopts p
with a fresh control block whose owning count is 1, the previously owned
block (if any) receives exactly one _use_sub_ref, and the recorded event
order shows the fresh handle state being constructed before the old object
is released. -/
theorem c5_reset_rejects_null_and_self (h : SPtr)
    (heap : List ControlBlock) (p : Option Nat)
    (hin : inHeap h heap = true) :
    ((resetTo h heap p).1 = Except.error "ptr is illegal"
      ↔ (p = none ∨ p = h._M_ptr))
    ∧ ((p = none ∨ p = h._M_ptr) →
        resetTo h heap p = (Except.error "ptr is illegal", h, heap, [])
        ∧ SPtr.use_count (resetTo h heap p).2.1 (resetTo h heap p).2.2.1
            = SPtr.use_count h heap)
    ∧ (¬(p = none ∨ p = h._M_ptr) →
        (resetTo h heap p).2.1 = { _M_ptr := p, _M_pi := some heap.length }
        ∧ getBlk (resetTo h heap p).2.2.1 heap.length = ControlBlock.mk0 p
        ∧ SPtr.use_count (resetTo h heap p).2.1 (resetTo h heap p).2.2.1 = 1
        ∧ (∀ i, h._M_pi = some i →
            getBlk (resetTo h heap p).2.2.1 i
              = ControlBlock._use_sub_ref (getBlk heap i))
        ∧ (resetTo h heap p).2.2.2
            = REv.alloc heap.length
              :: (match h._M_pi with
                  | some i => [REv.release i]
                  | none => [])) := by
  by_cases hf : p = none ∨ p = h._M_ptr
  · have hg : ¬(p ≠ none ∧ p ≠ h._M_ptr) := by tauto
    refine ⟨?_, ?_, ?_⟩
    · simp [resetTo, hg, hf]
    · intro _
      simp [resetTo, hg]
    · intro hc
      exact absurd hf hc
  · have hg : p ≠ none ∧ p ≠ h._M_ptr := by tauto
    refine ⟨?_, ?_, ?_⟩
    · cases hpi : h._M_pi <;> simp [resetTo, hg, hf, hpi]
    · intro hc
      exact absurd hc hf
    · intro _
      cases hpi : h._M_pi with
      | none =>
          refine ⟨?_, ?_, ?_, ?_, ?_⟩ <;>
            simp [resetTo, hg, hpi, SPtr.use_count, getBlk_append_self,
              ControlBlock.mk0, ControlBlock._get_use_count]
      | some i =>
          have hlt : i < heap.length := inHeap_lt hin hpi
          have hne : i ≠ heap.length := Nat.ne_of_lt hlt
          have hlt1 : i < (heap ++ [ControlBlock.mk0 p]).length := by
            simp
            omega
          refine ⟨?_, ?_, ?_, ?_, ?_⟩
          · simp [resetTo, hg, hpi]
          · simp [resetTo, hg, hpi, useSubRefAt, getBlk_set_ne _ _ _ _ hne,
              getBlk_append_self]
          · simp [resetTo, hg, hpi, SPtr.use_count, useSubRefAt,
              getBlk_set_ne _ _ _ _ hne, getBlk_append_self,
              ControlBlock.mk0, ControlBlock._get_use_count]
          · intro j hj
            have hij : j = i := (Option.some_inj.mp hj).symm
            subst hij
            have hgb : getBlk (heap ++ [ControlBlock.mk0 p]) j
                = getBlk heap j := by
              simp [getBlk, List.getD, List.getElem?_append_left hlt]
            simp [resetTo, hg, hpi, useSubRefAt, getBlk_set_self _ _ _ hlt1,
              hgb]
          · simp [resetTo, hg, hpi]

/-- Witness for C5 at concrete inputs: resetting a handle that owns the
pointee at address 1 to the fresh address 2 succeeds with a fresh block of
count 1 and the alloc event before the release event; resetting it to its
own pointer fails and changes nothing. -/
theorem c5_reset_rejects_null_and_self_witness :
    (resetTo { _M_ptr := some 1, _M_pi := some 0 }
        [ControlBlock.mk0 (some 1)] (some 2)).2.2.2
      = [REv.alloc 1, REv.release 0]
    ∧ resetTo { _M_ptr := some 1, _M_pi := some 0 }
        [ControlBlock.mk0 (some 1)] (some 1)
      = (Except.error "ptr is illegal",
         { _M_ptr := some 1, _M_pi := some 0 },
         [ControlBlock.mk0 (some 1)], []) :=
  ⟨((c5_reset_rejects_null_and_self { _M_ptr := some 1, _M_pi := some 0 }
      [ControlBlock.mk0 (some 1)] (some 2) (by decide)).2.2
        (by decide)).2.2.2.2,
   ((c5_reset_rejects_null_and_self { _M_ptr := some 1, _M_pi := some 0 }
      [ControlBlock.mk0 (some 1)] (some 1) (by decide)).2.1
        (by decide)).1⟩

/-- C6: operator* and operator-> surface the null-dereference error exactly
when the handle is empty, never yielding a value in that case; on a
non-empty handle they return the pointee (its address in this model) —
and, both being functions of the handle alone, they have no effect on the
handle or the control block, matching the const methods that read only the
stored pointer. -/
theorem c6_deref_fails_iff_empty (h : SPtr) :
    (sharedStar h = Except.error "shared_ptr is empty" ↔ h._M_ptr = none)
    ∧ (∀ a : Nat, sharedStar h = Except.ok a ↔ h._M_ptr = some a)
    ∧ (sharedArrow h = Except.error "shared_ptr is empty" ↔ h._M_ptr = none)
    ∧ (∀ a : Nat, sharedArrow h = Except.ok a ↔ h._M_ptr = some a) := by
  cases hp : h._M_ptr <;> simp [sharedStar, sharedArrow, hp]

/-- Witness for C6 at concrete inputs: the empty handle fails to
dereference, a handle holding address 4 dereferences to 4. -/
theorem c6_deref_fails_iff_empty_witness :
    sharedStar { _M_ptr := none, _M_pi := none }
      = Except.error "shared_ptr is empty"
    ∧ sharedArrow { _M_ptr := some 4, _M_pi := some 0 } = Except.ok 4 :=
  ⟨(c6_deref_fails_iff_empty { _M_ptr := none, _M_pi := none }).1.mpr rfl,
   ((c6_deref_fails_iff_empty { _M_ptr := some 4, _M_pi := some 0 }).2.2.2
      4).mpr rfl⟩

/-- C7 counterexample: an owning handle constructed from a null raw pointer
is empty (null access pointer), yet its use_count() is 1 and not 0, because
__shared_count(_Ptr) allocates a control block unconditionally, for a null
pointer as well (text_main.cc lines 351-354). -/
theorem c7_null_raw_pointer_counterexample :
    ((sharedFromRaw none []).1)._M_ptr = none
    ∧ ¬ SPtr.use_count (sharedFromRaw none []).1 (sharedFromRaw none []).2
        = 0
    ∧ SPtr.use_count (sharedFromRaw none []).1 (sharedFromRaw none []).2
        = 1 := by
  refine ⟨rfl, ?_, rfl⟩
  intro hc
  simp [sharedFromRaw, SPtr.use_count, getBlk, ControlBlock._get_use_count,
    ControlBlock.mk0, List.getD] at hc

/-- C7 amended: use_count() returns 0 exactly for the handles whose block
reference is null — the default-constructed handle, a moved-from handle,
and any handle with _M_pi null — while a handle constructed from a null
raw pointer has a null access pointer but a freshly allocated control
block, so its use_count() is 1. -/
theorem c7_use_count_zero_for_blockless_handles (h : SPtr)
    (heap : List ControlBlock) :
    (h._M_pi = none → SPtr.use_count h heap = 0)
    ∧ SPtr.use_count sharedDefault heap = 0
    ∧ ((sharedMove h).2._M_ptr = none ∧ (sharedMove h).2._M_pi = none
        ∧ SPtr.use_count (sharedMove h).2 heap = 0)
    ∧ (∀ p, ((sharedFromRaw p heap).1)._M_ptr = p
        ∧ SPtr.use_count (sharedFromRaw p heap).1
            (sharedFromRaw p heap).2 = 1) := by
  refine ⟨?_, rfl, ⟨rfl, rfl, rfl⟩, ?_⟩
  · intro hpi
    simp [SPtr.use_count, hpi]
  · intro p
    refine ⟨rfl, ?_⟩
    simp [SPtr.use_count, sharedFromRaw, getBlk_append_self,
      ControlBlock._get_use_count, ControlBlock.mk0]

/-- Witness for C7 (amended) at a concrete input: the default-constructed
handle has use_count() 0, and a handle built from the null raw pointer on
the empty heap has use_count() 1. -/
theorem c7_use_count_zero_for_blockless_handles_witness :
    SPtr.use_count { _M_ptr := none, _M_pi := none } [] = 0
    ∧ SPtr.use_count (sharedFromRaw none []).1 (sharedFromRaw none []).2
        = 1 :=
  ⟨(c7_use_count_zero_for_blockless_handles
      { _M_ptr := none, _M_pi := none } []).1 rfl,
   ((c7_use_count_zero_for_blockless_handles
      { _M_ptr := none, _M_pi := none } []).2.2.2 none).2⟩

/-- explicit operator bool() const: _M_ptr != nullptr. -/
def sharedToBool (a : SPtr) : Bool := a._M_ptr != none

/-- operator==(const shared_ptr&, const shared_ptr&):
a.get() == b.get() (src/unnamed/part_001 lines 261-265). -/
def sharedEq (a b : SPtr) : Bool := a._M_ptr == b._M_ptr

/-- operator==(const shared_ptr&, nullptr_t): !a
(src/unnamed/part_001 lines 268-271). -/
def sharedEqNull (a : SPtr) : Bool := !(sharedToBool a)

/-- C8, the equality part (the ordering operator< of the claim is the code
bug: the source line returns std::less of the element type constructed from
two pointers, which has no valid instantiation): handle equality holds
exactly when the two handles store the identical pointee address, and
equality against nullptr holds exactly when the handle is empty. -/
theorem c8_equality_by_pointee_identity (a b : SPtr) :
    (sharedEq a b = true ↔ a._M_ptr = b._M_ptr)
    ∧ (sharedEqNull a = true ↔ a._M_ptr = none) := by
  constructor
  · simp [sharedEq]
  · cases hp : a._M_ptr <;> simp [sharedEqNull, sharedToBool, hp]

/-- C10: copy assignment from a handle of the same control block —
including self-assignment — changes nothing: the assigned handle equals h
and the heap (hence the owning count of the block and use_count()) is
untouched, by the guard tmp != _M_pi in __shared_count::operator=.  The
WfPtr hypotheses are the representation invariant that every handle this
implementation produces satisfies: the stored access pointer is the pointer
managed by the referenced block (there is no aliasing constructor). -/
theorem c10_same_block_copy_assignment_is_identity (h r : SPtr)
    (heap : List ControlBlock) (hwh : WfPtr h heap) (hwr : WfPtr r heap)
    (hsame : r._M_pi = h._M_pi) :
    sharedAssign h r heap = (h, heap) := by
  have hptr : r._M_ptr = h._M_ptr := by
    rw [hwh, hwr, blockPtr, blockPtr, hsame]
  obtain ⟨hp, hpi⟩ := h
  simp only at hptr hsame
  simp [sharedAssign, hsame, hptr]

/-- Witness for C10 at a concrete input: self-assignment of the sole owner
of the pointee at address 7 changes neither the handle nor the heap. -/
theorem c10_same_block_copy_assignment_is_identity_witness :
    sharedAssign { _M_ptr := some 7, _M_pi := some 0 }
        { _M_ptr := some 7, _M_pi := some 0 } [ControlBlock.mk0 (some 7)]
      = ({ _M_ptr := some 7, _M_pi := some 0 },
         [ControlBlock.mk0 (some 7)]) :=
  c10_same_block_copy_assignment_is_identity
    { _M_ptr := some 7, _M_pi := some 0 }
    { _M_ptr := some 7, _M_pi := some 0 }
    [ControlBlock.mk0 (some 7)] rfl rfl rfl
